import Mathlib

/-!
Verification model of the WebSocket server subsystem of live-transcribe-fine.

The repository contains two server implementations:
* `src/WebSocket/BroadcastWebSocketServer.hpp` — promise-based `start()`,
  deferred teardown in `stop()`, thread-safe `broadcast()`;
* `src/WebSocket/WebSocketServer.hpp` — non-blocking `run()`, `stop()` with a
  direct-close fallback; this is the class actually used by
  `src/WebSocket/WebSocketServerPool.hpp`.

Both are embedded here as explicit state-passing functions.  Threaded
executions are collapsed at their synchronization points (promise/future,
thread join): each Lean function returns the quiescent state reached once the
server thread has passed the corresponding synchronization point, and
`startTrace` additionally exposes the intermediate states the server thread
moves through, so that invariants over "every point in the lifecycle" can be
stated and checked.
-/

set_option autoImplicit false

namespace LiveTranscribeFine

/-- Severity levels of the `ILogger` interface. -/
inductive LogLevel
  | debug
  | info
  | warn
  | error
  deriving DecidableEq

/-- Log events emitted by the modelled code paths (message text elided,
identity and level kept). -/
inductive LogEvent
  | warnCannotBroadcastNotRunning
  | errorLoopNullOnBroadcast
  | warnAlreadyRunning
  | warnNullWsOnOpen
  deriving DecidableEq

/-- Level of each modelled log event, as in the source calls
(`logger_.warn`, `logger_.error`, ...). -/
def logLevel : LogEvent → LogLevel
  | .warnCannotBroadcastNotRunning => .warn
  | .errorLoopNullOnBroadcast => .error
  | .warnAlreadyRunning => .warn
  | .warnNullWsOnOpen => .warn

/-- Spec lifecycle state of a `BroadcastWebSocketServer` (spec §3: Created,
Starting, Listening, Failed, Stopped).  Carried as ghost state alongside the
concrete fields. -/
inductive Phase
  | Created
  | Starting
  | Listening
  | Failed
  | Stopped
  deriving DecidableEq

/-- State of a `BroadcastWebSocketServer`
(`src/WebSocket/BroadcastWebSocketServer.hpp`).  Pointer members are modelled
as `Option Unit` (`none` = null); `threadJoinable` models
`serverThread_.joinable()`; `phase` is the ghost spec lifecycle state. -/
structure BroadcastWebSocketServer where
  port : Int
  running : Bool
  listen_success : Bool
  listen_socket : Option Unit
  app : Option Unit
  eventLoop : Option Unit
  threadJoinable : Bool
  phase : Phase
  deriving DecidableEq

/-- Constructor `BroadcastWebSocketServer(logger, port)`: all pointers null,
all flags false (source lines 55–65). -/
def newBroadcastWebSocketServer (port : Int) : BroadcastWebSocketServer :=
  { port := port
    running := false
    listen_success := false
    listen_socket := none
    app := none
    eventLoop := none
    threadJoinable := false
    phase := .Created }

/-- What `start()` sends across the thread boundary through the
`std::promise<bool>` / `std::future<bool>` pair: either a plain boolean value,
or (never, per the code) an exception. -/
inductive StartSignal
  | value (b : Bool)
  | thrown
  deriving DecidableEq

namespace BroadcastWebSocketServer

/-- Server-thread state right after `std::thread` is spawned with
`running_ = true` (source lines 99–100), before the thread stores the
`app_`/`eventLoop_` pointers. -/
def startStateSpawned (s : BroadcastWebSocketServer) : BroadcastWebSocketServer :=
  { s with running := true, threadJoinable := true, phase := .Starting }

/-- Server-thread state after the thread stores `app_ = &app` and
`eventLoop_ = loop` under `appMutex_` (source lines 107–111).  The bind
attempt has not happened yet: the lifecycle state is still `Starting`. -/
def startStateHandlesStored (s : BroadcastWebSocketServer) : BroadcastWebSocketServer :=
  { startStateSpawned s with app := some (), eventLoop := some () }

/-- Quiescent state once `start()` has returned, given the outcome `bindOk` of
the `app.listen` attempt.  On success (listen callback, lines 154–178, with a
non-null token, then `listen_success_ = listen_future.get()` line 205) the
socket is stored and the loop runs.  On failure the callback nulls
`app_`/`eventLoop_` (lines 160–163), the thread skips `app.run()`, performs
its cleanup (lines 190–199), and `start()` resets `running_` and joins
(lines 209–215). -/
def startStateFinal (s : BroadcastWebSocketServer) (bindOk : Bool) :
    BroadcastWebSocketServer :=
  if bindOk then
    { startStateHandlesStored s with
      listen_socket := some ()
      listen_success := true
      phase := .Listening }
  else
    { startStateHandlesStored s with
      app := none
      eventLoop := none
      listen_socket := none
      running := false
      listen_success := false
      threadJoinable := false
      phase := .Failed }

/-- The sequence of states the server passes through during a `start()` call
on a non-running server (empty if the server was already running, in which
case `start()` returns early, lines 91–94). -/
def startTrace (s : BroadcastWebSocketServer) (bindOk : Bool) :
    List BroadcastWebSocketServer :=
  if s.running then []
  else [startStateSpawned s, startStateHandlesStored s, startStateFinal s bindOk]

/-- Result of a `start()` call: the boolean return value, the quiescent state,
and the signal that crossed the thread boundary (`none` when the early-return
branch was taken and no promise was even created). -/
structure StartOutcome where
  result : Bool
  state : BroadcastWebSocketServer
  signal : Option StartSignal
  log : List LogEvent
  deriving DecidableEq

/-- `BroadcastWebSocketServer::start()` (source lines 89–218), collapsed at
the `listen_future.get()` synchronization point: the caller blocks there, so
the returned value is exactly the boolean the listen callback put into the
promise, i.e. the outcome of the bind attempt. -/
def start (s : BroadcastWebSocketServer) (bindOk : Bool) : StartOutcome :=
  if s.running then
    { result := s.listen_success
      state := s
      signal := none
      log := [.warnAlreadyRunning] }
  else
    { result := bindOk
      state := startStateFinal s bindOk
      signal := some (.value bindOk)
      log := [] }

/-- Result of a `stop()` call. `didTeardown` records whether the
`running_.exchange(false)` gate admitted this call to the teardown path;
`deferredScheduled` records whether the close closure was handed to
`loopToDefer->defer`. -/
structure StopOutcome where
  state : BroadcastWebSocketServer
  didTeardown : Bool
  deferredScheduled : Bool
  deriving DecidableEq

/-- `BroadcastWebSocketServer::stop()` (source lines 225–300), collapsed at
the `serverThread_.join()` synchronization point.  First caller (exchange
returns true): pointers are copied and nulled under `appMutex_`
(lines 234–245), the close closure is deferred when the loop pointer is
non-null (lines 247–264), the loop then exits and the thread's cleanup block
(lines 190–199) nulls everything and resets the flags, `join` returns, and
`listen_success_` is cleared (line 287).  Later callers (exchange returns
false): only a join attempt on an already-finished thread (lines 288–299). -/
def stop (s : BroadcastWebSocketServer) : StopOutcome :=
  if s.running then
    { state :=
        { s with
          running := false
          listen_success := false
          listen_socket := none
          app := none
          eventLoop := none
          threadJoinable := false
          phase := .Stopped }
      didTeardown := true
      deferredScheduled := s.eventLoop.isSome }
  else
    { state := { s with threadJoinable := false }
      didTeardown := false
      deferredScheduled := false }

/-- Result of a `broadcast()` call as seen by the producer thread:
the (unchanged) server state, the publishes handed to `defer`, the log events
emitted, and whether an exception escaped to the caller. -/
structure BroadcastOutcome where
  state : BroadcastWebSocketServer
  scheduled : List String
  log : List LogEvent
  threw : Bool
  deriving DecidableEq

/-- `BroadcastWebSocketServer::broadcast(message)` (source lines 308–342):
reads `eventLoop_`/`app_` under `appMutex_`; if the loop pointer is non-null
and `running_` is set, defers a publish of the message; otherwise, if not
running, logs a warning (line 337); otherwise logs an error (line 340).
No path throws to the caller. -/
def broadcast (s : BroadcastWebSocketServer) (message : String) : BroadcastOutcome :=
  if s.eventLoop.isSome && s.running then
    { state := s, scheduled := [message], log := [], threw := false }
  else if !s.running then
    { state := s
      scheduled := []
      log := [.warnCannotBroadcastNotRunning]
      threw := false }
  else
    { state := s
      scheduled := []
      log := [.errorLoopNullOnBroadcast]
      threw := false }

/-- `BroadcastWebSocketServer::isListening()` (source lines 348–351): reads
the atomic `listen_success_` flag. -/
def isListening (s : BroadcastWebSocketServer) : Bool :=
  s.listen_success

end BroadcastWebSocketServer

/-- States of a `BroadcastWebSocketServer` reachable by any sequence of
`start`, `stop` and `broadcast` calls from a freshly constructed server,
including the intermediate states of the server thread during `start`. -/
inductive Reachable : BroadcastWebSocketServer → Prop
  | init (port : Int) : Reachable (newBroadcastWebSocketServer port)
  | startStep (s t : BroadcastWebSocketServer) (b : Bool) :
      Reachable s → t ∈ BroadcastWebSocketServer.startTrace s b → Reachable t
  | stopStep (s : BroadcastWebSocketServer) :
      Reachable s → Reachable (BroadcastWebSocketServer.stop s).state
  | broadcastStep (s : BroadcastWebSocketServer) (m : String) :
      Reachable s → Reachable (BroadcastWebSocketServer.broadcast s m).state

/-- Invariant on reachable `BroadcastWebSocketServer` states relating the
pointer members, the flags and the ghost lifecycle state. -/
def StateInv (s : BroadcastWebSocketServer) : Prop :=
  (s.listen_socket.isSome = true ↔ s.phase = Phase.Listening) ∧
  (s.eventLoop = none → s.app = none ∧ s.listen_socket = none) ∧
  ((s.phase = Phase.Created ∨ s.phase = Phase.Failed ∨ s.phase = Phase.Stopped) →
    s.eventLoop = none ∧ s.app = none) ∧
  (s.phase = Phase.Listening →
    s.eventLoop = some () ∧ s.app = some () ∧ s.running = true) ∧
  (s.running = false →
    s.eventLoop = none ∧ s.app = none ∧ s.listen_socket = none ∧
    s.listen_success = false)

theorem stateInv_of_reachable (s : BroadcastWebSocketServer) (h : Reachable s) :
    StateInv s := by
  induction h with
  | init port =>
    simp [StateInv, newBroadcastWebSocketServer]
  | startStep s t b hs ht ih =>
    by_cases hr : s.running
    · simp [BroadcastWebSocketServer.startTrace, hr] at ht
    · obtain ⟨hloop, happ, hsock, hsucc⟩ := ih.2.2.2.2 (by simpa using hr)
      simp [BroadcastWebSocketServer.startTrace, hr] at ht
      rcases ht with ht | ht | ht <;> subst ht
      · simp [StateInv, BroadcastWebSocketServer.startStateSpawned, hloop, happ,
          hsock, hsucc]
      · simp [StateInv, BroadcastWebSocketServer.startStateHandlesStored,
          BroadcastWebSocketServer.startStateSpawned, hsock, hsucc]
      · cases b <;>
          simp [StateInv, BroadcastWebSocketServer.startStateFinal,
            BroadcastWebSocketServer.startStateHandlesStored,
            BroadcastWebSocketServer.startStateSpawned]
  | stopStep s hs ih =>
    by_cases hr : s.running
    · simp [StateInv, BroadcastWebSocketServer.stop, hr]
    · obtain ⟨hloop, happ, hsock, hsucc⟩ := ih.2.2.2.2 (by simpa using hr)
      have h1 := ih.1
      have h3 := ih.2.2.1
      have h4 := ih.2.2.2.1
      simp only [BroadcastWebSocketServer.stop, hr, if_neg, Bool.false_eq_true,
        if_false]
      constructor
      · simpa [hsock] using h1
      · refine ⟨by simp [hloop, happ, hsock], ?_, ?_, ?_⟩
        · intro hp
          simp [hloop, happ]
        · intro hp
          exact absurd ((h4 hp).2.2) (by simpa using hr)
        · intro _
          simp [hloop, happ, hsock, hsucc]
  | broadcastStep s m hs ih =>
    have : (BroadcastWebSocketServer.broadcast s m).state = s := by
      unfold BroadcastWebSocketServer.broadcast
      split <;> [rfl; split <;> rfl]
    rwa [this]

/-- State of a `WebSocketServer` (`src/WebSocket/WebSocketServer.hpp`).
`app` models the `std::unique_ptr<uWS::App>` member (allocated in the
constructor and never reset); `listen_socket` the raw socket pointer;
`threadJoinable` models `serverThread_.joinable()`. -/
structure WebSocketServer where
  port : Int
  app : Option Unit
  listen_socket : Option Unit
  listening : Bool
  running : Bool
  listen_attempted : Bool
  threadJoinable : Bool
  deriving DecidableEq

/-- Constructor `WebSocketServer(logger, port)` (source lines 24–32): the
`uWS::App` is allocated eagerly, everything else is false/null. -/
def newWebSocketServer (port : Int) : WebSocketServer :=
  { port := port
    app := some ()
    listen_socket := none
    listening := false
    running := false
    listen_attempted := false
    threadJoinable := false }

namespace WebSocketServer

/-- `WebSocketServer::run()` (source lines 65–146), collapsed to the quiescent
state reached once the spawned thread's bind attempt has completed, given the
outcome `bindOk` of `app_->listen`.  The method itself returns `void`
immediately after spawning the thread — it neither blocks on the bind result
nor reports it.  On bind success the listen callback stores the socket and
sets `listening_`, and the thread blocks in `app_->run()`.  On bind failure
the callback resets `running_`/`listen_attempted_` and the thread falls
through its final reset block (lines 138–141) and exits (unjoined). -/
def run (s : WebSocketServer) (bindOk : Bool) : WebSocketServer :=
  if s.running || s.listen_attempted then s
  else if bindOk then
    { s with
      running := true
      listen_attempted := true
      listen_socket := some ()
      listening := true
      threadJoinable := true }
  else
    { s with
      running := false
      listen_attempted := false
      listen_socket := none
      listening := false
      threadJoinable := true }

/-- Result of a `WebSocketServer::stop()` call: the final state, whether the
close closure was deferred onto the loop, and whether the listen socket and
the app were closed directly on the calling thread (the fallback path). -/
structure WStopOutcome where
  state : WebSocketServer
  deferredClose : Bool
  closedSocketDirect : Bool
  closedAppDirect : Bool
  deriving DecidableEq

/-- `WebSocketServer::stop()` (source lines 149–201).  Gated by
`running_.exchange(false)`.  When the app and listen socket are both valid,
the close is deferred onto the loop only when `getLoop()` succeeded, the
thread is joinable, and the caller is not the loop thread itself
(line 161); otherwise the socket and the app are closed directly
(lines 172–184).  `getLoopOk` models `getLoop()` returning without throwing;
`foreignCaller` models `serverThread_.get_id() != std::this_thread::get_id()`. -/
def stop (s : WebSocketServer) (getLoopOk foreignCaller : Bool) : WStopOutcome :=
  if s.running then
    if s.app.isSome && s.listen_socket.isSome then
      if getLoopOk && s.threadJoinable && foreignCaller then
        { state :=
            { s with
              running := false
              listening := false
              listen_attempted := false
              listen_socket := none
              threadJoinable := false }
          deferredClose := true
          closedSocketDirect := false
          closedAppDirect := false }
      else
        { state :=
            { s with
              running := false
              listening := false
              listen_attempted := false
              listen_socket := none
              threadJoinable := false }
          deferredClose := false
          closedSocketDirect := s.listen_socket.isSome
          closedAppDirect := s.app.isSome }
    else
      { state :=
          { s with
            running := false
            listening := false
            listen_attempted := false
            threadJoinable := false }
        deferredClose := false
        closedSocketDirect := false
        closedAppDirect := false }
  else
    { state := s
      deferredClose := false
      closedSocketDirect := false
      closedAppDirect := false }

/-- `WebSocketServer::isListening()` (source lines 204–206). -/
def isListening (s : WebSocketServer) : Bool :=
  s.listening

end WebSocketServer

/-- One entry of the pool's `std::unordered_map<int, std::weak_ptr<...>>`:
the identity of the server instance the `weak_ptr` observes, and whether the
`weak_ptr` has expired (all strong references dropped). -/
structure PoolEntry where
  id : Nat
  expired : Bool
  deriving DecidableEq

/-- State of a `WebSocketServerPool`
(`src/WebSocket/WebSocketServerPool.hpp`): the port→weak-reference map
(association list), the still-allocated server instances by identity, and the
identity to be given to the next `std::make_shared<WebSocketServer>`. -/
structure WebSocketServerPool where
  servers : List (Int × PoolEntry)
  instances : List (Nat × WebSocketServer)
  nextId : Nat
  deriving DecidableEq

/-- Actions `ensureGetServer` performs, in order, used to state that the whole
read/create/insert sequence runs inside the single `std::lock_guard` on
`mutex_`. -/
inductive PoolEvent
  | lockAcquire
  | findEntry
  | weakLock
  | serverCreate
  | serverRun
  | mapInsert
  | lockRelease
  deriving DecidableEq

namespace WebSocketServerPool

/-- `servers_.find(port)` on the association list. -/
def lookupEntry (p : WebSocketServerPool) (port : Int) : Option PoolEntry :=
  (p.servers.find? (fun pr => pr.1 == port)).map Prod.snd

/-- `servers_[port] = server_ptr` on the association list. -/
def updateEntry (l : List (Int × PoolEntry)) (port : Int) (e : PoolEntry) :
    List (Int × PoolEntry) :=
  (port, e) :: l.filter (fun pr => pr.1 != port)

/-- The instance a given identity refers to, if still allocated. -/
def getInstance (p : WebSocketServerPool) (id : Nat) : Option WebSocketServer :=
  (p.instances.find? (fun pr => pr.1 == id)).map Prod.snd

/-- Result of an `ensureGetServer` call: the new pool state, the returned
`shared_ptr` (by instance identity; `none` would be a null pointer), whether
a new instance was constructed, and the ordered actions performed. -/
structure EnsureOutcome where
  pool : WebSocketServerPool
  result : Option Nat
  createdNew : Bool
  events : List PoolEvent
  deriving DecidableEq

/-- The creation path of `ensureGetServer` (source lines 70–81 and 90–93):
`std::make_shared<WebSocketServer>(port)`, `server_ptr->run()`,
`servers_[port] = server_ptr`. -/
def createServer (p : WebSocketServerPool) (port : Int) (bindOk : Bool)
    (events : List PoolEvent) : EnsureOutcome :=
  { pool :=
      { servers := updateEntry p.servers port ⟨p.nextId, false⟩
        instances := (p.nextId, (newWebSocketServer port).run bindOk) :: p.instances
        nextId := p.nextId + 1 }
    result := some p.nextId
    createdNew := true
    events := events }

/-- `WebSocketServerPool::ensureGetServer(port)` (source lines 63–101).  The
whole body runs under `std::lock_guard<std::mutex> lock(mutex_)`.  `bindOk` is
the environment's bind outcome for a newly created server; `lockRaces` models
the rare case in which `it->second.lock()` returns null even though
`expired()` just returned false (source lines 87–94). -/
def ensureGetServer (p : WebSocketServerPool) (port : Int)
    (bindOk lockRaces : Bool) : EnsureOutcome :=
  match lookupEntry p port with
  | none =>
    createServer p port bindOk
      [.lockAcquire, .findEntry, .serverCreate, .serverRun, .mapInsert,
       .lockRelease]
  | some e =>
    if e.expired then
      createServer p port bindOk
        [.lockAcquire, .findEntry, .serverCreate, .serverRun, .mapInsert,
         .lockRelease]
    else if lockRaces then
      createServer p port bindOk
        [.lockAcquire, .findEntry, .weakLock, .serverCreate, .serverRun,
         .mapInsert, .lockRelease]
    else
      { pool := p
        result := some e.id
        createdNew := false
        events := [.lockAcquire, .findEntry, .weakLock, .lockRelease] }

end WebSocketServerPool

/-- `uWS::CompressOptions` values used by this code base. -/
inductive CompressOptions
  | DISABLED
  | SHARED_COMPRESSOR
  deriving DecidableEq

/-- The fields of `uWS::App::WebSocketBehavior<void>` that
`BroadcastWebSocketServer::start` assigns (source lines 114–121). -/
structure WebSocketBehavior where
  compression : CompressOptions
  maxPayloadLength : Nat
  idleTimeout : Nat
  maxBackpressure : Nat
  closeOnBackpressureLimit : Bool
  resetIdleTimeoutOnSend : Bool
  sendPingsAutomatically : Bool
  deriving DecidableEq

/-- `BroadcastWebSocketServer::broadcastTopic` (source line 374). -/
def BroadcastWebSocketServer.broadcastTopic : String := "broadcast"

/-- The behavior configured in `BroadcastWebSocketServer::start`
(source lines 114–121). -/
def configuredBehavior : WebSocketBehavior :=
  { compression := .DISABLED
    maxPayloadLength := 16 * 1024 * 1024
    idleTimeout := 0
    maxBackpressure := 1 * 1024 * 1024
    closeOnBackpressureLimit := false
    resetIdleTimeoutOnSend := false
    sendPingsAutomatically := false }

/-- A WebSocket connection, reduced to the set of topics it is subscribed
to. -/
structure Connection where
  topics : List String
  deriving DecidableEq

/-- The `behavior.open` handler (source lines 124–131): given the (possibly
null) `ws` pointer, subscribe the connection to `broadcastTopic`, or log a
warning when the pointer is null. -/
def openHandler (ws : Option Connection) : Option Connection × List LogEvent :=
  match ws with
  | some c =>
    (some { c with topics := BroadcastWebSocketServer.broadcastTopic :: c.topics },
     [])
  | none => (none, [.warnNullWsOnOpen])

/-- A terminated server is observed fully stopped: all three pointer members
null and both flags false. -/
def fullyStoppedObs (s : BroadcastWebSocketServer) : Prop :=
  s.app = none ∧ s.listen_socket = none ∧ s.eventLoop = none ∧
  s.running = false ∧ s.listen_success = false

/-- C1: on a non-running server, `start()` blocks until the bind attempt has
completed — its return value is exactly the outcome of the bind attempt —
and it returns true iff the server is listening afterwards; the bind outcome
crosses the thread boundary as the plain boolean promise value, never as a
thrown exception. -/
theorem start_blocks_and_reports_bind (s : BroadcastWebSocketServer)
    (bindOk : Bool) (h : s.running = false) :
    (s.start bindOk).result = bindOk ∧
    ((s.start bindOk).result = true ↔ (s.start bindOk).state.isListening = true) ∧
    (s.start bindOk).signal = some (StartSignal.value bindOk) := by
  cases bindOk <;>
    simp [BroadcastWebSocketServer.start, BroadcastWebSocketServer.startStateFinal,
      BroadcastWebSocketServer.startStateHandlesStored,
      BroadcastWebSocketServer.startStateSpawned,
      BroadcastWebSocketServer.isListening, h]

/-- Witness for C1: concrete failed and successful starts of a fresh server on
port 9001. -/
theorem start_blocks_and_reports_bind_witness :
    ((newBroadcastWebSocketServer 9001).start false).result = false ∧
    ((newBroadcastWebSocketServer 9001).start true).signal =
      some (StartSignal.value true) :=
  ⟨(start_blocks_and_reports_bind (newBroadcastWebSocketServer 9001) false rfl).1,
   (start_blocks_and_reports_bind (newBroadcastWebSocketServer 9001) true rfl).2.2⟩

/-- C2: `broadcast` on a non-running server is a no-op — state unchanged, no
publish scheduled — that emits exactly one warning-level log event and throws
nothing to the producer thread. -/
theorem broadcast_not_running_noop (s : BroadcastWebSocketServer)
    (m : String) (h : s.running = false) :
    (s.broadcast m).state = s ∧
    (s.broadcast m).scheduled = [] ∧
    (s.broadcast m).log = [LogEvent.warnCannotBroadcastNotRunning] ∧
    logLevel LogEvent.warnCannotBroadcastNotRunning = LogLevel.warn ∧
    (s.broadcast m).threw = false := by
  simp [BroadcastWebSocketServer.broadcast, h, logLevel]

/-- Witness for C2: broadcasting on a fresh (never started) server on port
9001. -/
theorem broadcast_not_running_noop_witness :
    ((newBroadcastWebSocketServer 9001).broadcast "hello").state =
      newBroadcastWebSocketServer 9001 ∧
    ((newBroadcastWebSocketServer 9001).broadcast "hello").scheduled = [] :=
  ⟨(broadcast_not_running_noop (newBroadcastWebSocketServer 9001) "hello" rfl).1,
   (broadcast_not_running_noop (newBroadcastWebSocketServer 9001) "hello" rfl).2.1⟩

/-- C8: the configured behavior disables compression, caps payloads at 16 MiB,
disables the idle timeout, sets a 1 MiB backpressure ceiling without closing
the connection when it is exceeded, and the open handler subscribes every
accepted connection to the single fixed topic "broadcast". -/
theorem behavior_configuration :
    configuredBehavior.compression = CompressOptions.DISABLED ∧
    configuredBehavior.maxPayloadLength = 16 * 1024 * 1024 ∧
    configuredBehavior.idleTimeout = 0 ∧
    configuredBehavior.maxBackpressure = 1 * 1024 * 1024 ∧
    configuredBehavior.closeOnBackpressureLimit = false ∧
    BroadcastWebSocketServer.broadcastTopic = "broadcast" ∧
    ∀ c : Connection,
      (openHandler (some c)).1 =
        some { c with
               topics := BroadcastWebSocketServer.broadcastTopic :: c.topics } :=
  ⟨rfl, rfl, rfl, rfl, rfl, rfl, fun _ => rfl⟩

/-- C10: whenever the server thread exits — bind failure during `start`, or
the event loop finishing after `stop` — the server is subsequently observed
fully stopped: all pointer members null, `running_` and `listen_success_`
false, and `isListening()` false. -/
theorem thread_exit_fully_stopped (s : BroadcastWebSocketServer) :
    (s.running = false →
      fullyStoppedObs (s.start false).state ∧
      (s.start false).state.isListening = false) ∧
    (s.running = true →
      fullyStoppedObs (s.stop).state ∧ (s.stop).state.isListening = false) := by
  constructor <;> intro h <;>
    simp [BroadcastWebSocketServer.start, BroadcastWebSocketServer.stop,
      BroadcastWebSocketServer.startStateFinal,
      BroadcastWebSocketServer.startStateHandlesStored,
      BroadcastWebSocketServer.startStateSpawned,
      BroadcastWebSocketServer.isListening, fullyStoppedObs, h]

/-- Witness for C10: a fresh server whose bind fails, and a successfully
listening server that is stopped. -/
theorem thread_exit_fully_stopped_witness :
    fullyStoppedObs ((newBroadcastWebSocketServer 9001).start false).state ∧
    fullyStoppedObs
      (((newBroadcastWebSocketServer 9001).start true).state.stop).state :=
  ⟨((thread_exit_fully_stopped (newBroadcastWebSocketServer 9001)).1 rfl).1,
   ((thread_exit_fully_stopped
      ((newBroadcastWebSocketServer 9001).start true).state).2 rfl).1⟩

/-- C3: `stop()` is idempotent.  Only the first call of a sequence performs
teardown (the `running_.exchange(false)` gate), after one `stop()` the server
is not listening and the thread is joined, and a second `stop()` is a safe
no-op that leaves the state exactly as the first left it. -/
theorem stop_idempotent (s : BroadcastWebSocketServer) (h : Reachable s) :
    (s.stop).didTeardown = s.running ∧
    (s.stop).state.isListening = false ∧
    (s.stop).state.threadJoinable = false ∧
    ((s.stop).state.stop).state = (s.stop).state ∧
    ((s.stop).state.stop).didTeardown = false := by
  have hinv := stateInv_of_reachable s h
  by_cases hr : s.running
  · cases s
    simp_all [BroadcastWebSocketServer.stop, BroadcastWebSocketServer.isListening]
  · have hsucc := (hinv.2.2.2.2 (by simpa using hr)).2.2.2
    cases s
    simp_all [BroadcastWebSocketServer.stop, BroadcastWebSocketServer.isListening]

/-- Witness for C3: stopping a fresh server on port 9001 twice, and stopping a
successfully started server on port 9002 twice. -/
theorem stop_idempotent_witness :
    (((newBroadcastWebSocketServer 9001).stop).state.stop).state =
      ((newBroadcastWebSocketServer 9001).stop).state ∧
    ((((newBroadcastWebSocketServer 9002).start true).state.stop).state.stop).state =
      (((newBroadcastWebSocketServer 9002).start true).state.stop).state :=
  ⟨(stop_idempotent (newBroadcastWebSocketServer 9001)
      (Reachable.init 9001)).2.2.2.1,
   (stop_idempotent ((newBroadcastWebSocketServer 9002).start true).state
      (Reachable.startStep (newBroadcastWebSocketServer 9002) _ true
        (Reachable.init 9002) (by decide))).2.2.2.1⟩

/-- The state of the server thread during `start()` right after it has stored
`app_` and `eventLoop_` (source lines 107–111) and before the bind attempt:
lifecycle state `Starting`, both handles already non-null. -/
def startingStateWithHandles : BroadcastWebSocketServer :=
  { port := 9001
    running := true
    listen_success := false
    listen_socket := none
    app := some ()
    eventLoop := some ()
    threadJoinable := true
    phase := .Starting }

/-- Counterexample to C6 as stated: a reachable lifecycle point in the
`Starting` state where the event-loop handle (and the application handle) is
already non-null, so "non-null iff `Listening`" fails for the event-loop
handle. -/
theorem handles_nonnull_while_starting :
    Reachable startingStateWithHandles ∧
    startingStateWithHandles.phase = Phase.Starting ∧
    startingStateWithHandles.eventLoop ≠ none ∧
    startingStateWithHandles.app ≠ none ∧
    startingStateWithHandles.phase ≠ Phase.Listening :=
  ⟨Reachable.startStep (newBroadcastWebSocketServer 9001) _ true
      (Reachable.init 9001) (by decide),
   by decide, by decide, by decide, by decide⟩

/-- C6 (amended): at every reachable lifecycle point, the listening-socket
handle is non-null iff the state is `Listening`; the event-loop and
application handles are null in `Created`, `Failed` and `Stopped` and non-null
in `Listening` — but during `Starting` they may already be non-null, because
the server thread stores them before the bind result is known. -/
theorem socket_iff_listening (s : BroadcastWebSocketServer) (h : Reachable s) :
    (s.listen_socket.isSome = true ↔ s.phase = Phase.Listening) ∧
    ((s.phase = Phase.Created ∨ s.phase = Phase.Failed ∨ s.phase = Phase.Stopped) →
      s.eventLoop = none ∧ s.app = none) ∧
    (s.phase = Phase.Listening → s.eventLoop = some () ∧ s.app = some ()) := by
  have hinv := stateInv_of_reachable s h
  exact ⟨hinv.1, hinv.2.2.1,
    fun hp => ⟨(hinv.2.2.2.1 hp).1, (hinv.2.2.2.1 hp).2.1⟩⟩

/-- Witness for C6 (amended): the fresh server on port 9001 (state `Created`,
all handles null) and the successfully started one (state `Listening`, socket
non-null). -/
theorem socket_iff_listening_witness :
    ((newBroadcastWebSocketServer 9001).listen_socket.isSome = true ↔
      (newBroadcastWebSocketServer 9001).phase = Phase.Listening) ∧
    (((newBroadcastWebSocketServer 9001).start true).state.listen_socket.isSome =
        true ↔
      ((newBroadcastWebSocketServer 9001).start true).state.phase =
        Phase.Listening) :=
  ⟨(socket_iff_listening _ (Reachable.init 9001)).1,
   (socket_iff_listening ((newBroadcastWebSocketServer 9001).start true).state
      (Reachable.startStep (newBroadcastWebSocketServer 9001) _ true
        (Reachable.init 9001) (by decide))).1⟩

/-- C7: when the teardown closure cannot be deferred because the event-loop
handle is gone, teardown is not skipped for any still-valid handle.  In
`WebSocketServer::stop`, when `getLoop()` fails while the app and listen
socket are valid, both are closed directly on the calling thread.  In
`BroadcastWebSocketServer::stop`, whenever the loop pointer is null at any
reachable state, the app and listen-socket pointers are provably null too, so
there is no valid handle left for the log-only branch to skip. -/
theorem stop_direct_teardown_fallback :
    (∀ (s : WebSocketServer) (foreignCaller : Bool),
      s.running = true → s.app.isSome = true → s.listen_socket.isSome = true →
      (s.stop false foreignCaller).closedSocketDirect = true ∧
      (s.stop false foreignCaller).closedAppDirect = true ∧
      (s.stop false foreignCaller).deferredClose = false) ∧
    (∀ s : BroadcastWebSocketServer, Reachable s → s.eventLoop = none →
      s.app = none ∧ s.listen_socket = none) := by
  constructor
  · intro s fc hr happ hsock
    simp [WebSocketServer.stop, hr, happ, hsock]
  · intro s h hloop
    exact (stateInv_of_reachable s h).2.1 hloop

/-- Witness for C7: a running `WebSocketServer` on port 9002 whose `getLoop()`
fails, and the fresh `BroadcastWebSocketServer` on port 9001 whose loop
pointer is null. -/
theorem stop_direct_teardown_fallback_witness :
    (((newWebSocketServer 9002).run true).stop false true).closedSocketDirect =
      true ∧
    (newBroadcastWebSocketServer 9001).app = none :=
  ⟨(stop_direct_teardown_fallback.1 ((newWebSocketServer 9002).run true) true
      (by decide) (by decide) (by decide)).1,
   (stop_direct_teardown_fallback.2 (newBroadcastWebSocketServer 9001)
      (Reachable.init 9001) rfl).1⟩

/-- A freshly constructed pool (`servers_` empty). -/
def emptyPool : WebSocketServerPool :=
  { servers := [], instances := [], nextId := 0 }

/-- A pool holding a live (non-expired) entry for port 9001, observing the
instance with identity 0. -/
def poolWithLiveEntry : WebSocketServerPool :=
  { servers := [(9001, ⟨0, false⟩)]
    instances := [(0, (newWebSocketServer 9001).run true)]
    nextId := 1 }

/-- C4: as long as the pool holds a non-expired entry for a port, every
`ensureGetServer(port)` call returns a reference to that same existing
instance, constructs nothing, leaves the pool unchanged, and performs the
whole read sequence bracketed by the single pool-wide lock, with no creation
step in between. -/
theorem ensure_reuses_live_entry (p : WebSocketServerPool) (port : Int)
    (e : PoolEntry) (bindOk : Bool)
    (h1 : p.lookupEntry port = some e) (h2 : e.expired = false) :
    (p.ensureGetServer port bindOk false).result = some e.id ∧
    (p.ensureGetServer port bindOk false).createdNew = false ∧
    (p.ensureGetServer port bindOk false).pool = p ∧
    (p.ensureGetServer port bindOk false).events.head? =
      some PoolEvent.lockAcquire ∧
    (p.ensureGetServer port bindOk false).events.getLast? =
      some PoolEvent.lockRelease ∧
    PoolEvent.serverCreate ∉ (p.ensureGetServer port bindOk false).events := by
  simp [WebSocketServerPool.ensureGetServer, h1, h2]

/-- Witness for C4: reusing the live entry of `poolWithLiveEntry` for port
9001. -/
theorem ensure_reuses_live_entry_witness :
    (poolWithLiveEntry.ensureGetServer 9001 true false).result = some 0 ∧
    (poolWithLiveEntry.ensureGetServer 9001 true false).pool =
      poolWithLiveEntry :=
  ⟨(ensure_reuses_live_entry poolWithLiveEntry 9001 ⟨0, false⟩ true
      (by decide) rfl).1,
   (ensure_reuses_live_entry poolWithLiveEntry 9001 ⟨0, false⟩ true
      (by decide) rfl).2.2.1⟩

/-- C9: `ensureGetServer` always returns a non-null server reference — on the
fresh-creation branch, the live-reuse branch and the lock-failure recreation
branch alike — and the returned reference is the same whether or not the
created server managed to bind its port, so the return value carries no bind
information. -/
theorem ensure_always_returns_server (p : WebSocketServerPool) (port : Int)
    (bindOk lockRaces : Bool) :
    (p.ensureGetServer port bindOk lockRaces).result.isSome = true ∧
    (p.ensureGetServer port true lockRaces).result =
      (p.ensureGetServer port false lockRaces).result := by
  rcases h : p.lookupEntry port with _ | e
  · simp [WebSocketServerPool.ensureGetServer, h,
      WebSocketServerPool.createServer]
  · by_cases he : e.expired <;> by_cases hl : lockRaces <;>
      simp [WebSocketServerPool.ensureGetServer, h, he, hl,
        WebSocketServerPool.createServer]

/-- Counterexample to C5 as stated: on a fresh pool, `ensureGetServer(9001)`
in an environment where the bind fails still returns a non-null reference —
to a server whose `isListening()` is false — instead of reporting the failure
to its caller. -/
theorem ensure_returns_dead_server_on_bind_failure :
    (emptyPool.ensureGetServer 9001 false false).result.isSome = true ∧
    ((emptyPool.ensureGetServer 9001 false false).pool.getInstance 0).map
        WebSocketServer.isListening = some false := by
  decide

/-- C5 (amended): on the creation path, `ensureGetServer(port)` starts the new
server without waiting for the bind outcome and returns a non-null reference
to it unconditionally — the same reference whether the bind succeeds or
fails — and after a failed bind attempt the referenced server's
`isListening()` reports false. -/
theorem ensure_creation_no_bind_report (p : WebSocketServerPool) (port : Int)
    (lockRaces : Bool)
    (h : (p.lookupEntry port).all PoolEntry.expired = true) :
    (p.ensureGetServer port false lockRaces).result = some p.nextId ∧
    ((p.ensureGetServer port false lockRaces).pool.getInstance p.nextId).map
        WebSocketServer.isListening = some false ∧
    (p.ensureGetServer port true lockRaces).result =
      (p.ensureGetServer port false lockRaces).result := by
  rcases hl : p.lookupEntry port with _ | e
  · simp [WebSocketServerPool.ensureGetServer, hl,
      WebSocketServerPool.createServer, WebSocketServerPool.getInstance,
      WebSocketServer.run, newWebSocketServer, WebSocketServer.isListening]
  · have he : e.expired = true := by simpa [hl, Option.all] using h
    simp [WebSocketServerPool.ensureGetServer, hl, he,
      WebSocketServerPool.createServer, WebSocketServerPool.getInstance,
      WebSocketServer.run, newWebSocketServer, WebSocketServer.isListening]

/-- Witness for C5 (amended): fresh creation on an empty pool for port
9001. -/
theorem ensure_creation_no_bind_report_witness :
    (emptyPool.ensureGetServer 9001 false false).result = some 0 ∧
    ((emptyPool.ensureGetServer 9001 false false).pool.getInstance 0).map
        WebSocketServer.isListening = some false :=
  ⟨(ensure_creation_no_bind_report emptyPool 9001 false rfl).1,
   (ensure_creation_no_bind_report emptyPool 9001 false rfl).2.1⟩

end LiveTranscribeFine
